import Mathlib

/-!
Verification of the touch-controller subsystem of the CYDc board-support
library (`cydc.py`): the reset sequence and sleep-disable write performed in
`CYD.__init__` (lines 158-172), the touch-report decode performed in
`CYD.touches` (lines 236-240), and the caller-side orientation transform of
the touch demo (`touch_demo.py` lines 47-48).

The stateful hardware interactions are embedded as explicit event traces
(pin level changes, millisecond sleeps, bus register reads and writes), and
the binary decode as a pure function on byte lists.  Sleep durations are
modelled in whole milliseconds, converting the source's second-valued
`time.sleep` arguments (0.001 s = 1 ms, 0.01 s = 10 ms, 0.3 s = 300 ms).
-/

namespace Cydc

/-- Big-endian 16-bit value from two bytes, as produced by the `>H` field of
`struct.unpack`. -/
def u16be (hi lo : Nat) : Nat := hi * 256 + lo

/-- Result of `CYD.touches`: either the 3-tuple of the single-touch branch or
the 5-tuple of the multitouch branch. -/
inductive TouchData where
  | single (points x1 y1 : Nat)
  | multi (points x1 y1 x2 y2 : Nat)
deriving DecidableEq

/-- `struct.unpack('>BHH', buf)` as implemented by MicroPython's
`struct` module (the runtime of `cydc.py`): `unpack` is `unpack_from` at
offset 0, which raises `ValueError` (modelled as `none`) only when the buffer
holds fewer bytes than the format needs, and silently ignores trailing
bytes. -/
def struct_unpack_BHH : List Nat → Option (Nat × Nat × Nat)
  | b0 :: b1 :: b2 :: b3 :: b4 :: _ => some (b0, u16be b1 b2, u16be b3 b4)
  | _ => none

/-- `struct.unpack('>BHHHH', buf)` under the same MicroPython semantics. -/
def struct_unpack_BHHHH : List Nat → Option (Nat × Nat × Nat × Nat × Nat)
  | b0 :: b1 :: b2 :: b3 :: b4 :: b5 :: b6 :: b7 :: b8 :: _ =>
      some (b0, u16be b1 b2, u16be b3 b4, u16be b5 b6, u16be b7 b8)
  | _ => none

/-- The decode step of `CYD.touches` (cydc.py:236-240), separated from the
bus read: unpack `>BHH` from the raw bytes when `multitouch` is false,
`>BHHHH` when it is true. -/
def decode (raw : List Nat) (multitouch : Bool) : Option TouchData :=
  if multitouch = false then
    (struct_unpack_BHH raw).map (fun t => TouchData.single t.1 t.2.1 t.2.2)
  else
    (struct_unpack_BHHHH raw).map
      (fun t => TouchData.multi t.1 t.2.1 t.2.2.1 t.2.2.2.1 t.2.2.2.2)

/-- Observable hardware events issued by the library: digital pin level
changes, blocking sleeps (milliseconds), and I2C register writes/reads. -/
inductive Event where
  | pinSet (pin : Nat) (level : Bool)
  | sleepMs (ms : Nat)
  | i2cWrite (addr reg : Nat) (payload : List Nat)
  | i2cRead (addr reg len : Nat)
deriving DecidableEq

/-- The reset sequence of `CYD.__init__` (cydc.py:160-170): interrupt pin 21
high, 1 ms, low, 1 ms; reset pin 25 low, 10 ms, high, 300 ms. -/
def resetTrace : List Event :=
  [Event.pinSet 21 true,
   Event.sleepMs 1,
   Event.pinSet 21 false,
   Event.sleepMs 1,
   Event.pinSet 25 false,
   Event.sleepMs 10,
   Event.pinSet 25 true,
   Event.sleepMs 300]

/-- The touch section of `CYD.__init__` (cydc.py:160-172), statement by
statement: the pin reset sequence followed by
`self._touch.writeto_mem(0x15, 0xFE, b'\xff')`. -/
def initTouchTrace : List Event :=
  [Event.pinSet 21 true,
   Event.sleepMs 1,
   Event.pinSet 21 false,
   Event.sleepMs 1,
   Event.pinSet 25 false,
   Event.sleepMs 10,
   Event.pinSet 25 true,
   Event.sleepMs 300,
   Event.i2cWrite 0x15 0xFE [0xFF]]

/-- The full pin-relevant trace of `CYD.__init__` with default arguments:
backlight pin 27 driven high (line 155), then the touch section, then the
static-mode RGB pins 4/16/17 driven high (lines 183-185). -/
def initTrace : List Event :=
  [Event.pinSet 27 true] ++ initTouchTrace ++
    [Event.pinSet 4 true, Event.pinSet 16 true, Event.pinSet 17 true]

/-- One call of `CYD.touches` (cydc.py:236-240) as a bus trace: a single
read of 5 or 9 bytes from register 0x02 of device 0x15. -/
def pollTrace (multitouch : Bool) : List Event :=
  [Event.i2cRead 0x15 0x02 (if multitouch then 9 else 5)]

/-- A sequence of polls, as a trace. -/
def pollsTrace : List Bool → List Event
  | [] => []
  | m :: rest => pollTrace m ++ pollsTrace rest

/-- Post-construction operations of the `CYD` handle that issue pin or touch
bus events: `touches` (cydc.py:222-240), `backlight` (cydc.py:302-309),
static-mode `rgb` (cydc.py:261-264), and the static-mode pin writes of
`shutdown` (cydc.py:454-457). -/
inductive Op where
  | poll (multitouch : Bool)
  | backlight (val : Nat)
  | rgbStatic (r g b : Nat)
  | shutdownStatic

/-- Trace of one post-construction operation, translated from the source:
`backlight` writes `int(min(max(val,0),1))` to pin 27; static `rgb` writes
`1 if min(max(c,0),1) == 0 else 0` to pins 4, 16, 17; `shutdown` in static
mode writes 1 to pins 4, 16, 17. -/
def opTrace : Op → List Event
  | Op.poll m => pollTrace m
  | Op.backlight v => [Event.pinSet 27 (min v 1 == 1)]
  | Op.rgbStatic r g b =>
      [Event.pinSet 4 (min r 1 == 0),
       Event.pinSet 16 (min g 1 == 0),
       Event.pinSet 17 (min b 1 == 0)]
  | Op.shutdownStatic =>
      [Event.pinSet 4 true, Event.pinSet 16 true, Event.pinSet 17 true]

/-- Trace of a sequence of post-construction operations. -/
def opsTrace : List Op → List Event
  | [] => []
  | o :: rest => opTrace o ++ opsTrace rest

/-- Is this event the sleep-disable write `writeto_mem(0x15, 0xFE, b'\xff')`? -/
def isSleepDisableWrite : Event → Bool
  | Event.i2cWrite a r p => a == 0x15 && r == 0xFE && p == [0xFF]
  | _ => false

/-- Is this event an I2C register read? -/
def isRead : Event → Bool
  | Event.i2cRead _ _ _ => true
  | _ => false

/-- Does this event change the level of the given pin? -/
def onPin (pin : Nat) : Event → Bool
  | Event.pinSet p _ => p == pin
  | _ => false

/-- Fold step tracking the last level driven onto a pin. -/
def levelUpd (pin : Nat) (acc : Option Bool) : Event → Option Bool
  | Event.pinSet p l => if p == pin then some l else acc
  | _ => acc

/-- Last level driven onto a pin by a trace (`none` if never driven). -/
def levelAfter (pin : Nat) (t : List Event) : Option Bool :=
  t.foldl (levelUpd pin) none

/-- Caller-side x transform of the touch demo (touch_demo.py:48):
`min(max(((width - 1) - raw_x), r+1), width-(r+1))`.  Integers, since the
subtraction may go negative in Python. -/
def demoMapX (w r raw_x : Int) : Int :=
  min (max ((w - 1) - raw_x) (r + 1)) (w - (r + 1))

/-- Caller-side y transform of the touch demo (touch_demo.py:47). -/
def demoMapY (h r raw_y : Int) : Int :=
  min (max ((h - 1) - raw_y) (r + 1)) (h - (r + 1))

/-- The touch-relevant state read by a `CYD.touches` call: the two touch
control pin levels and the response function of the I2C bus (device address,
register, requested length ↦ returned bytes). -/
structure CYDTouchState where
  intLevel : Bool
  rstLevel : Bool
  bus : Nat → Nat → Nat → List Nat

/-- `CYD.touches` (cydc.py:236-240) against an explicit state: read 5 bytes
(single) or 9 bytes (multitouch) from register 0x02 of device 0x15, then
unpack. -/
def touches (s : CYDTouchState) (multitouch : Bool) : Option TouchData :=
  decode (s.bus 0x15 0x02 (if multitouch then 9 else 5)) multitouch

/-! ### Helper lemmas about the unpack functions -/

theorem struct_unpack_BHH_short (raw : List Nat) (h : raw.length < 5) :
    struct_unpack_BHH raw = none :=
  match raw, h with
  | [], _ => rfl
  | [_], _ => rfl
  | [_, _], _ => rfl
  | [_, _, _], _ => rfl
  | [_, _, _, _], _ => rfl
  | _ :: _ :: _ :: _ :: _ :: _, h =>
      absurd h (by simp only [List.length_cons]; omega)

theorem struct_unpack_BHHHH_short (raw : List Nat) (h : raw.length < 9) :
    struct_unpack_BHHHH raw = none :=
  match raw, h with
  | [], _ => rfl
  | [_], _ => rfl
  | [_, _], _ => rfl
  | [_, _, _], _ => rfl
  | [_, _, _, _], _ => rfl
  | [_, _, _, _, _], _ => rfl
  | [_, _, _, _, _, _], _ => rfl
  | [_, _, _, _, _, _, _], _ => rfl
  | [_, _, _, _, _, _, _, _], _ => rfl
  | _ :: _ :: _ :: _ :: _ :: _ :: _ :: _ :: _ :: _, h =>
      absurd h (by simp only [List.length_cons]; omega)

theorem struct_unpack_BHH_take (raw : List Nat) :
    struct_unpack_BHH raw = struct_unpack_BHH (raw.take 5) :=
  match raw with
  | [] => rfl
  | [_] => rfl
  | [_, _] => rfl
  | [_, _, _] => rfl
  | [_, _, _, _] => rfl
  | _ :: _ :: _ :: _ :: _ :: _ => rfl

theorem struct_unpack_BHHHH_take (raw : List Nat) :
    struct_unpack_BHHHH raw = struct_unpack_BHHHH (raw.take 9) :=
  match raw with
  | [] => rfl
  | [_] => rfl
  | [_, _] => rfl
  | [_, _, _] => rfl
  | [_, _, _, _] => rfl
  | [_, _, _, _, _] => rfl
  | [_, _, _, _, _, _] => rfl
  | [_, _, _, _, _, _, _] => rfl
  | [_, _, _, _, _, _, _, _] => rfl
  | _ :: _ :: _ :: _ :: _ :: _ :: _ :: _ :: _ :: _ => rfl

/-! ### Decoder claims -/

/-- Claim C2: for every 5-byte input whose first byte is in 0, 1, 2,
single-touch decoding returns that byte as the finger count and one point
whose coordinates are the big-endian 16-bit values of bytes 1-2 and 3-4. -/
theorem decode_single_of_valid (b0 b1 b2 b3 b4 : Nat)
    (_hb0 : b0 = 0 ∨ b0 = 1 ∨ b0 = 2) :
    decode [b0, b1, b2, b3, b4] false =
      some (TouchData.single b0 (u16be b1 b2) (u16be b3 b4)) := rfl

/-- Claim C2 witness: raw = 01 00 64 00 C8 decodes in single-touch mode to
finger count 1 and point (100, 200). -/
theorem decode_single_of_valid_witness :
    decode [0x01, 0x00, 0x64, 0x00, 0xC8] false =
      some (TouchData.single 1 100 200) :=
  decode_single_of_valid 0x01 0x00 0x64 0x00 0xC8 (Or.inr (Or.inl rfl))

/-- Claim C3: for every 9-byte input, multitouch decoding returns the first
byte as the finger count and two points whose coordinates are the four
big-endian 16-bit values of the remaining bytes; in particular raw =
02 00 0A 00 14 00 1E 00 28 decodes to finger count 2 and points (10, 20) and
(30, 40). -/
theorem decode_multi_bigendian :
    (∀ b0 b1 b2 b3 b4 b5 b6 b7 b8 : Nat,
      decode [b0, b1, b2, b3, b4, b5, b6, b7, b8] true =
        some (TouchData.multi b0 (u16be b1 b2) (u16be b3 b4)
          (u16be b5 b6) (u16be b7 b8))) ∧
    decode [0x02, 0x00, 0x0A, 0x00, 0x14, 0x00, 0x1E, 0x00, 0x28] true =
      some (TouchData.multi 2 10 20 30 40) :=
  ⟨fun _ _ _ _ _ _ _ _ _ => rfl, rfl⟩

/-- Claim C5 counterexample: a finger-count byte of 3 (or 255) is not
rejected; the decoder returns a report carrying that value unchanged. -/
theorem decode_accepts_invalid_finger_count :
    decode [3, 0, 0, 0, 0] false = some (TouchData.single 3 0 0) ∧
    decode [255, 0, 0, 0, 0] false = some (TouchData.single 255 0 0) :=
  ⟨rfl, rfl⟩

/-- Claim C5 amended: the decoder performs no finger-count validation: for
any first byte greater than 2 (such as 3 or 255) it still returns a report
carrying that byte unchanged, in both single-touch and multitouch mode. -/
theorem decode_no_finger_count_validation :
    (∀ b0 b1 b2 b3 b4 : Nat, 2 < b0 →
      decode [b0, b1, b2, b3, b4] false =
        some (TouchData.single b0 (u16be b1 b2) (u16be b3 b4))) ∧
    (∀ b0 b1 b2 b3 b4 b5 b6 b7 b8 : Nat, 2 < b0 →
      decode [b0, b1, b2, b3, b4, b5, b6, b7, b8] true =
        some (TouchData.multi b0 (u16be b1 b2) (u16be b3 b4)
          (u16be b5 b6) (u16be b7 b8))) :=
  ⟨fun _ _ _ _ _ _ => rfl, fun _ _ _ _ _ _ _ _ _ _ => rfl⟩

/-- Claim C5 amended witness: finger-count byte 255 in single-touch mode and
3 in multitouch mode are both passed through. -/
theorem decode_no_finger_count_validation_witness :
    decode [255, 1, 44, 2, 88] false = some (TouchData.single 255 300 600) ∧
    decode [3, 0, 1, 0, 2, 0, 3, 0, 4] true =
      some (TouchData.multi 3 1 2 3 4) :=
  ⟨decode_no_finger_count_validation.1 255 1 44 2 88 (by decide),
   decode_no_finger_count_validation.2 3 0 1 0 2 0 3 0 4 (by decide)⟩

/-- Claim C6 counterexample: a 9-byte buffer decoded in single-touch mode
(record size 5) does not fail; the four trailing bytes are silently ignored
and a report is produced. -/
theorem decode_truncates_long_buffer :
    ([1, 0, 100, 0, 200, 7, 7, 7, 7] : List Nat).length = 9 ∧
    decode [1, 0, 100, 0, 200, 7, 7, 7, 7] false =
      some (TouchData.single 1 100 200) :=
  ⟨rfl, rfl⟩

/-- Claim C6 amended: decoding fails only when the buffer holds fewer bytes
than the selected record size (5 single-touch, 9 multitouch) -- in
particular a 5-byte buffer with multitouch selected fails -- while a longer
buffer is silently truncated: the result depends only on the first
record-size bytes. -/
theorem decode_length_handling :
    (∀ (raw : List Nat) (m : Bool),
      raw.length < (if m then 9 else 5) → decode raw m = none) ∧
    (∀ (raw : List Nat) (m : Bool),
      decode raw m = decode (raw.take (if m then 9 else 5)) m) := by
  constructor
  · intro raw m h
    cases m with
    | false => simp [decode, struct_unpack_BHH_short raw (by simpa using h)]
    | true => simp [decode, struct_unpack_BHHHH_short raw (by simpa using h)]
  · intro raw m
    cases m with
    | false => simp [decode, struct_unpack_BHH_take raw]
    | true => simp [decode, struct_unpack_BHHHH_take raw]

/-- Claim C6 amended witness: a 3-byte buffer fails in multitouch mode, and
a 6-byte buffer in single-touch mode decodes like its first 5 bytes. -/
theorem decode_length_handling_witness :
    decode [1, 2, 3] true = none ∧
    decode [1, 0, 100, 0, 200, 9] false =
      decode (([1, 0, 100, 0, 200, 9] : List Nat).take (if false then 9 else 5))
        false :=
  ⟨decode_length_handling.1 [1, 2, 3] true (by decide),
   decode_length_handling.2 [1, 0, 100, 0, 200, 9] false⟩

/-- Claim C7: the decode step is deterministic and stateless: a `touches`
call reads nothing from the handle state except the bytes the bus returns
for the selected mode, so any two states agreeing on those bytes produce
identical reports. -/
theorem touches_reads_only_bus_bytes (s1 s2 : CYDTouchState) (m : Bool)
    (h : s1.bus 0x15 0x02 (if m then 9 else 5) =
         s2.bus 0x15 0x02 (if m then 9 else 5)) :
    touches s1 m = touches s2 m := by
  unfold touches
  rw [h]

/-- Claim C7 witness: two states with different pin levels but the same bus
bytes yield the same report. -/
theorem touches_reads_only_bus_bytes_witness :
    touches ⟨true, false, fun _ _ _ => [1, 0, 100, 0, 200]⟩ false =
      touches ⟨false, true, fun _ _ _ => [1, 0, 100, 0, 200]⟩ false :=
  touches_reads_only_bus_bytes _ _ false rfl

/-- Claim C8: for every 9-byte input, decoding its first 5 bytes in
single-touch mode yields the same finger count and the same first point as
decoding the whole input in multitouch mode. -/
theorem decode_take5_agrees_with_multi (raw : List Nat) (h : raw.length = 9) :
    ∃ p x1 y1 x2 y2,
      decode raw true = some (TouchData.multi p x1 y1 x2 y2) ∧
      decode (raw.take 5) false = some (TouchData.single p x1 y1) := by
  rcases raw with _ | ⟨b0, raw⟩
  · simp at h
  rcases raw with _ | ⟨b1, raw⟩
  · simp at h
  rcases raw with _ | ⟨b2, raw⟩
  · simp at h
  rcases raw with _ | ⟨b3, raw⟩
  · simp at h
  rcases raw with _ | ⟨b4, raw⟩
  · simp at h
  rcases raw with _ | ⟨b5, raw⟩
  · simp at h
  rcases raw with _ | ⟨b6, raw⟩
  · simp at h
  rcases raw with _ | ⟨b7, raw⟩
  · simp at h
  rcases raw with _ | ⟨b8, raw⟩
  · simp at h
  rcases raw with _ | ⟨b9, raw⟩
  · exact ⟨b0, u16be b1 b2, u16be b3 b4, u16be b5 b6, u16be b7 b8, rfl, rfl⟩
  · simp only [List.length_cons] at h
    omega

/-- Claim C8 witness: the 9-byte report 02 000A 0014 001E 0028 and its
5-byte head decode to the same finger count and first point. -/
theorem decode_take5_agrees_with_multi_witness :
    ∃ p x1 y1 x2 y2,
      decode [2, 0, 10, 0, 20, 0, 30, 0, 40] true =
        some (TouchData.multi p x1 y1 x2 y2) ∧
      decode (([2, 0, 10, 0, 20, 0, 30, 0, 40] : List Nat).take 5) false =
        some (TouchData.single p x1 y1) :=
  decode_take5_agrees_with_multi [2, 0, 10, 0, 20, 0, 30, 0, 40] rfl

/-- Claim C9 counterexample: the demo's y transform at display height 320,
radius 4, raw y 100 gives 219, not 320 - 100 = 220: the transform is not
`display_dim - raw_coord`. -/
theorem demo_transform_not_dim_minus_raw :
    demoMapY 320 4 100 ≠ 320 - 100 := by decide

/-- Claim C9 amended: the decoder returns coordinates as raw device-space
values, and the demo's caller-side transform maps a raw coordinate to
`(display_dim - 1) - raw_coord`, clamped to the band `[r+1, display_dim-(r+1)]`
that keeps the drawn circle on screen; the flip equals `(display_dim - 1) -
raw_coord` exactly whenever it lies inside that band. -/
theorem demo_transform_flip_with_clamp :
    (∀ b0 b1 b2 b3 b4 : Nat,
      decode [b0, b1, b2, b3, b4] false =
        some (TouchData.single b0 (u16be b1 b2) (u16be b3 b4))) ∧
    (∀ h r y : Int, r + 1 ≤ h - 1 - y → h - 1 - y ≤ h - (r + 1) →
      demoMapY h r y = h - 1 - y) ∧
    (∀ w r x : Int, r + 1 ≤ w - 1 - x → w - 1 - x ≤ w - (r + 1) →
      demoMapX w r x = w - 1 - x) := by
  refine ⟨fun _ _ _ _ _ => rfl, ?_, ?_⟩
  · intro h r y h1 h2
    unfold demoMapY
    rw [max_eq_left h1, min_eq_left h2]
  · intro w r x h1 h2
    unfold demoMapX
    rw [max_eq_left h1, min_eq_left h2]

/-- Claim C9 amended witness: at height 320 the demo maps raw y 100 to
319 - 100 = 219, and at width 240 it maps raw x 50 to 239 - 50 = 189. -/
theorem demo_transform_flip_with_clamp_witness :
    demoMapY 320 4 100 = 320 - 1 - 100 ∧ demoMapX 240 4 50 = 240 - 1 - 50 :=
  ⟨demo_transform_flip_with_clamp.2.1 320 4 100 (by decide) (by decide),
   demo_transform_flip_with_clamp.2.2 240 4 50 (by decide) (by decide)⟩

/-! ### Trace lemmas -/

theorem pollsTrace_no_sleep_disable (polls : List Bool) :
    (pollsTrace polls).filter isSleepDisableWrite = [] := by
  induction polls with
  | nil => rfl
  | cons m rest ih =>
      simp [pollsTrace, pollTrace, List.filter_append, ih, isSleepDisableWrite]

theorem levelUpd_skip (pin : Nat) (acc : Option Bool) (e : Event)
    (h : onPin pin e = false) : levelUpd pin acc e = acc := by
  cases e with
  | pinSet p l =>
      simp only [onPin] at h
      simp [levelUpd, h]
  | sleepMs ms => rfl
  | i2cWrite a r p => rfl
  | i2cRead a r l => rfl

theorem foldl_levelUpd_id (pin : Nat) (t : List Event)
    (h : ∀ e ∈ t, onPin pin e = false) (acc : Option Bool) :
    t.foldl (levelUpd pin) acc = acc := by
  induction t generalizing acc with
  | nil => rfl
  | cons e rest ih =>
      rw [List.foldl_cons, levelUpd_skip pin acc e (h e (by simp))]
      exact ih (fun x hx => h x (by simp [hx])) acc

theorem opsTrace_no_touch_pins (ops : List Op) (pin : Nat)
    (hpin : pin = 21 ∨ pin = 25) :
    ∀ e ∈ opsTrace ops, onPin pin e = false := by
  induction ops with
  | nil =>
      intro e he
      simp [opsTrace] at he
  | cons o rest ih =>
      intro e he
      rw [opsTrace, List.mem_append] at he
      rcases he with he | he
      · cases o with
        | poll m =>
            simp [opTrace, pollTrace] at he
            subst he
            rfl
        | backlight v =>
            simp [opTrace] at he
            subst he
            rcases hpin with rfl | rfl <;> rfl
        | rgbStatic r g b =>
            simp [opTrace] at he
            rcases he with rfl | rfl | rfl <;>
              rcases hpin with rfl | rfl <;> rfl
        | shutdownStatic =>
            simp [opTrace] at he
            rcases he with rfl | rfl | rfl <;>
              rcases hpin with rfl | rfl <;> rfl
      · exact ih e he

/-! ### Trace claims -/

/-- Claim C1: for any sequence of polls after construction, the full trace
contains exactly one sleep-disable write `writeto_mem(0x15, 0xFE, [0xFF])`;
within the touch section of `CYD.__init__` that write comes immediately
after the completed pin reset sequence, the touch section issues no register
read, and the polls issue no further sleep-disable write -- so every read of
register 0x02 comes strictly after the single write. -/
theorem sleep_disable_once_after_reset_before_reads (polls : List Bool) :
    ((initTouchTrace ++ pollsTrace polls).filter isSleepDisableWrite).length
        = 1 ∧
    initTouchTrace = resetTrace ++ [Event.i2cWrite 0x15 0xFE [0xFF]] ∧
    initTouchTrace.filter isRead = [] ∧
    (pollsTrace polls).filter isSleepDisableWrite = [] := by
  refine ⟨?_, by decide, by decide, pollsTrace_no_sleep_disable polls⟩
  rw [List.filter_append, pollsTrace_no_sleep_disable polls]
  decide

/-- Claim C1 witness: instantiated at one single-touch poll followed by one
multitouch poll. -/
theorem sleep_disable_once_after_reset_before_reads_witness :
    ((initTouchTrace ++ pollsTrace [false, true]).filter
        isSleepDisableWrite).length = 1 ∧
    initTouchTrace = resetTrace ++ [Event.i2cWrite 0x15 0xFE [0xFF]] ∧
    initTouchTrace.filter isRead = [] ∧
    (pollsTrace [false, true]).filter isSleepDisableWrite = [] :=
  sleep_disable_once_after_reset_before_reads [false, true]

/-- Claim C4: the touch section of `CYD.__init__` consists of exactly the
reset sequence -- interrupt pin 21 high, hold t1 >= 1 ms, low, hold
t2 >= 1 ms, then reset pin 25 low, hold t3 >= 10 ms, high, hold
t4 >= 300 ms -- followed only by the sleep-disable write, with exactly four
pin level changes in the whole section (no other level change on either
line). -/
theorem reset_sequence_order_and_holds :
    ∃ t1 t2 t3 t4 : Nat,
      initTouchTrace =
        [Event.pinSet 21 true, Event.sleepMs t1,
         Event.pinSet 21 false, Event.sleepMs t2,
         Event.pinSet 25 false, Event.sleepMs t3,
         Event.pinSet 25 true, Event.sleepMs t4,
         Event.i2cWrite 0x15 0xFE [0xFF]] ∧
      1 ≤ t1 ∧ 1 ≤ t2 ∧ 10 ≤ t3 ∧ 300 ≤ t4 ∧
      (initTouchTrace.filter (fun e => onPin 21 e || onPin 25 e)).length = 4 :=
  ⟨1, 1, 10, 300, by decide⟩

/-- Claim C10: after `CYD.__init__` the interrupt pin 21 is left low and the
reset pin 25 high, and no sequence of later handle operations (polls,
backlight, static rgb, shutdown pin writes) changes either level. -/
theorem touch_pins_stable_after_construction (ops : List Op) :
    levelAfter 21 (initTrace ++ opsTrace ops) = some false ∧
    levelAfter 25 (initTrace ++ opsTrace ops) = some true := by
  constructor
  · show (initTrace ++ opsTrace ops).foldl (levelUpd 21) none = some false
    rw [List.foldl_append,
      foldl_levelUpd_id 21 (opsTrace ops)
        (opsTrace_no_touch_pins ops 21 (Or.inl rfl))]
    decide
  · show (initTrace ++ opsTrace ops).foldl (levelUpd 25) none = some true
    rw [List.foldl_append,
      foldl_levelUpd_id 25 (opsTrace ops)
        (opsTrace_no_touch_pins ops 25 (Or.inr rfl))]
    decide

end Cydc
